import Mathlib

/-!
# Shallow embedding of the Retail Point-of-Sale reconciliation engine

This file embeds the reconciliation and discrepancy-detection engine of the
repository (src/reconciliation.js, entry-creation and form-validation code in
src/Code.gs) into Lean 4 and proves / refutes the frozen specification claims.

Modelling conventions:
* JavaScript numbers are modelled as `ℚ` (the claims are exact arithmetic
  identities and threshold comparisons; no rounding behaviour is at stake).
* A field that may be `undefined` in a JS record is modelled as an `Option`
  when a claim depends on its absence (only `totalSales` needs this); fields
  the engine reads with an `|| 0` default and that every claim treats as
  present are modelled as plain `ℚ`.
* JS strings are Lean `String`s; a required field that is missing or empty
  (`!entry.date`) is modelled as the empty string.
* `new Date(...)` parsing of a date string to epoch milliseconds is a host
  builtin, modelled as an uninterpreted parameter `parseDate : String → ℚ`.
-/

namespace POS

/-- Severity strings `'low' | 'medium' | 'high'` used throughout the engine. -/
inductive Severity
  | low
  | medium
  | high
deriving DecidableEq, Repr

/-- `severityOrder = { high: 3, medium: 2, low: 1 }` (reconciliation.js:154). -/
def severityOrder : Severity → Nat
  | .high => 3
  | .medium => 2
  | .low => 1

/-- Issue type strings produced by `findDiscrepancies` (reconciliation.js:85-151). -/
inductive IssueType
  | cash_discrepancy
  | high_returns
  | low_opening_cash
  | zero_sales
  | negative_values
deriving DecidableEq, Repr

/-- One issue attached to a discrepancy record: `{type, severity, amount?|percentage?, description}`.
The human-readable `description` string is display-only and omitted. -/
structure Issue where
  type : IssueType
  severity : Severity
  amount : Option ℚ
  percentage : Option ℚ
deriving DecidableEq, Repr

/-- A sales entry as consumed by the engine.  `totalSales` is `Option ℚ`
because the engine is specified to tolerate its absence; the remaining
numeric fields are read by the engine as numbers (absent-as-zero is the same
as present `0` under the `|| 0` defaults), so they are plain `ℚ`. -/
structure SalesEntry where
  id : String
  date : String
  registerNumber : String
  openingCash : ℚ
  cashSales : ℚ
  cardSales : ℚ
  returnsRefunds : ℚ
  cashDrops : ℚ
  closingCash : ℚ
  totalSales : Option ℚ
  cashDifference : ℚ
deriving DecidableEq, Repr

/-- `reconciliationRules` configuration object (reconciliation.js:8-13). -/
structure ReconciliationRules where
  cashDiscrepancyThreshold : ℚ
  largeDiscrepancyThreshold : ℚ
  maxReturnsPercentage : ℚ
  minOpeningCash : ℚ
deriving DecidableEq, Repr

/-- The default rule values (reconciliation.js:8-13). -/
def defaultRules : ReconciliationRules :=
  { cashDiscrepancyThreshold := 5
    largeDiscrepancyThreshold := 50
    maxReturnsPercentage := 10
    minOpeningCash := 100 }

/-! ## Entry creation (src/Code.gs)

`addSalesEntry` (Code.gs:296-350) computes the derived fields from the raw
form data and the configured `CONFIG.RECONCILIATION_RULES.CASH_DISCREPANCY_THRESHOLD`;
`saveSalesEntry` (Code.gs:1062-1076) does the same but compares against the
literal `5`. -/

/-- Raw sales form data: the output shape of `collectSalesFormData`
(Code.gs:947-960) / the `salesData` argument of `addSalesEntry`.  Missing
numeric inputs are already defaulted to `0` by `parseFloat(...) || 0`. -/
structure RawSalesData where
  date : String
  registerNumber : String
  openingCash : ℚ
  cashSales : ℚ
  cardSales : ℚ
  returnsRefunds : ℚ
  cashDrops : ℚ
  closingCash : ℚ
deriving DecidableEq, Repr

/-- Entry status strings `'balanced' | 'discrepancy'` stored on an entry. -/
inductive EntryStatus
  | balanced
  | discrepancy
deriving DecidableEq, Repr

/-- A stored sales entry row with its derived fields
(the `rowData` of Code.gs:311-326 / the mutated record of Code.gs:1062-1069). -/
structure StoredEntry where
  entryId : String
  date : String
  registerNumber : String
  openingCash : ℚ
  cashSales : ℚ
  cardSales : ℚ
  returnsRefunds : ℚ
  cashDrops : ℚ
  closingCash : ℚ
  expectedCash : ℚ
  cashDifference : ℚ
  totalSales : ℚ
  status : EntryStatus
deriving DecidableEq, Repr

/-- `addSalesEntry` derived-field computation (Code.gs:304-326), parameterised
by the configured `CASH_DISCREPANCY_THRESHOLD` and by the generated entry id. -/
def addSalesEntry (threshold : ℚ) (entryId : String) (d : RawSalesData) : StoredEntry :=
  let expectedCash := d.openingCash + d.cashSales - d.returnsRefunds - d.cashDrops
  let cashDifference := d.closingCash - expectedCash
  let totalSales := d.cashSales + d.cardSales
  let status : EntryStatus :=
    if |cashDifference| ≤ threshold then .balanced else .discrepancy
  { entryId := entryId
    date := d.date
    registerNumber := d.registerNumber
    openingCash := d.openingCash
    cashSales := d.cashSales
    cardSales := d.cardSales
    returnsRefunds := d.returnsRefunds
    cashDrops := d.cashDrops
    closingCash := d.closingCash
    expectedCash := expectedCash
    cashDifference := cashDifference
    totalSales := totalSales
    status := status }

/-- `saveSalesEntry` derived-field computation (Code.gs:1062-1069).  The
status comparison uses the hard-coded literal `5`, not the configured
threshold. -/
def saveSalesEntry (entryId : String) (d : RawSalesData) : StoredEntry :=
  let totalSales := d.cashSales + d.cardSales
  let expectedCash := d.openingCash + d.cashSales - d.returnsRefunds - d.cashDrops
  let cashDifference := d.closingCash - expectedCash
  let status : EntryStatus :=
    if |cashDifference| ≤ (5 : ℚ) then .balanced else .discrepancy
  { entryId := entryId
    date := d.date
    registerNumber := d.registerNumber
    openingCash := d.openingCash
    cashSales := d.cashSales
    cardSales := d.cardSales
    returnsRefunds := d.returnsRefunds
    cashDrops := d.cashDrops
    closingCash := d.closingCash
    expectedCash := expectedCash
    cashDifference := cashDifference
    totalSales := totalSales
    status := status }

/-! ## The reconciliation engine (src/reconciliation.js) -/

/-- JS `entry.totalSales || (entry.cashSales + entry.cardSales)`
(reconciliation.js:64): an absent (`none`) or zero `totalSales` is falsy and
falls back to `cashSales + cardSales`. -/
def totalSalesOrDefault (e : SalesEntry) : ℚ :=
  match e.totalSales with
  | some t => if t = 0 then e.cashSales + e.cardSales else t
  | none => e.cashSales + e.cardSales

/-- Aggregate totals object built by `calculateTotals` (reconciliation.js:48-80). -/
structure Totals where
  totalEntries : ℕ
  totalSales : ℚ
  cashSales : ℚ
  cardSales : ℚ
  totalReturns : ℚ
  totalCashDrops : ℚ
  openingCash : ℚ
  closingCash : ℚ
  expectedCash : ℚ
  actualCashPosition : ℚ
  totalCashDifference : ℚ
  overallCashDifference : ℚ
deriving DecidableEq, Repr

/-- `calculateTotals` (reconciliation.js:48-80).  The per-field `|| 0`
defaults coincide with the plain sum since the numeric fields are total in
the model; `totalSales` uses the falsy fallback of line 64. -/
def calculateTotals (salesData : List SalesEntry) : Totals :=
  let openingCash := (salesData.map (·.openingCash)).sum
  let cashSales := (salesData.map (·.cashSales)).sum
  let totalReturns := (salesData.map (·.returnsRefunds)).sum
  let totalCashDrops := (salesData.map (·.cashDrops)).sum
  let closingCash := (salesData.map (·.closingCash)).sum
  let expectedCash := openingCash + cashSales - totalReturns - totalCashDrops
  { totalEntries := salesData.length
    totalSales := (salesData.map totalSalesOrDefault).sum
    cashSales := cashSales
    cardSales := (salesData.map (·.cardSales)).sum
    totalReturns := totalReturns
    totalCashDrops := totalCashDrops
    openingCash := openingCash
    closingCash := closingCash
    expectedCash := expectedCash
    actualCashPosition := closingCash
    totalCashDifference := (salesData.map (·.cashDifference)).sum
    overallCashDifference := closingCash - expectedCash }

/-- The issue list one entry contributes in `findDiscrepancies`
(reconciliation.js:88-139), checks evaluated in the source order.
`entry.totalSales > 0` is false when `totalSales` is absent (`undefined > 0`
is false in JS), and `entry.totalSales === 0` is likewise false when absent,
so neither comparison applies the `cashSales + cardSales` fallback. -/
def entryIssues (rules : ReconciliationRules) (e : SalesEntry) : List Issue :=
  let cashDiff := |e.cashDifference|
  let i1 : List Issue :=
    if cashDiff > rules.cashDiscrepancyThreshold then
      [{ type := .cash_discrepancy
         severity := if cashDiff > rules.largeDiscrepancyThreshold then .high else .medium
         amount := some e.cashDifference
         percentage := none }]
    else []
  let returnsPercentage : ℚ :=
    match e.totalSales with
    | some t => if t > 0 then e.returnsRefunds / t * 100 else 0
    | none => 0
  let i2 : List Issue :=
    if returnsPercentage > rules.maxReturnsPercentage then
      [{ type := .high_returns, severity := .medium, amount := none
         percentage := some returnsPercentage }]
    else []
  let i3 : List Issue :=
    if e.openingCash < rules.minOpeningCash then
      [{ type := .low_opening_cash, severity := .low, amount := some e.openingCash
         percentage := none }]
    else []
  let i4 : List Issue :=
    if e.totalSales = some 0 ∧ e.cashSales = 0 ∧ e.cardSales = 0 then
      [{ type := .zero_sales, severity := .medium, amount := none, percentage := none }]
    else []
  let i5 : List Issue :=
    if e.cashSales < 0 ∨ e.cardSales < 0 ∨ e.closingCash < 0 then
      [{ type := .negative_values, severity := .high, amount := none, percentage := none }]
    else []
  i1 ++ i2 ++ i3 ++ i4 ++ i5

/-- `calculateOverallSeverity` (reconciliation.js:300-304). -/
def calculateOverallSeverity (issues : List Issue) : Severity :=
  if issues.any (fun i => i.severity = .high) then .high
  else if issues.any (fun i => i.severity = .medium) then .medium
  else .low

/-- A discrepancy record (reconciliation.js:142-149); the display-only
`description` strings inside issues are omitted. -/
structure Discrepancy where
  entryId : String
  date : String
  registerNumber : String
  cashDifference : ℚ
  issues : List Issue
  overallSeverity : Severity
deriving DecidableEq, Repr

/-- Stable insertion step for the severity-descending sort: an element is
placed after every earlier element of greater-or-equal severity rank, so
ties preserve input order. -/
def insertDesc (d : Discrepancy) : List Discrepancy → List Discrepancy
  | [] => [d]
  | e :: rest =>
    if severityOrder d.overallSeverity ≤ severityOrder e.overallSeverity then
      e :: insertDesc d rest
    else
      d :: e :: rest

/-- The `.sort((a, b) => severityOrder[b] - severityOrder[a])` call of
reconciliation.js:153-156: `Array.prototype.sort` is a stable sort, modelled
as a stable insertion sort descending on `severityOrder`. -/
def sortBySeverityDesc : List Discrepancy → List Discrepancy
  | [] => []
  | d :: rest => insertDesc d (sortBySeverityDesc rest)

/-- `findDiscrepancies` (reconciliation.js:85-157): entries with at least one
issue become discrepancy records, sorted severity-descending (stable). -/
def findDiscrepancies (rules : ReconciliationRules) (salesData : List SalesEntry) :
    List Discrepancy :=
  sortBySeverityDesc <| salesData.filterMap fun e =>
    let issues := entryIssues rules e
    if issues.isEmpty then none
    else some
      { entryId := e.id
        date := e.date
        registerNumber := e.registerNumber
        cashDifference := e.cashDifference
        issues := issues
        overallSeverity := calculateOverallSeverity issues }

/-- Cross-entry validation error records (reconciliation.js:162-219); the
display-only `description` strings are omitted, the type-specific payload
fields are kept. -/
inductive ValidationError
  | duplicate_entry (severity : Severity) (date registerNumber : String)
      (affectedEntries : List String)
  | missing_dates (severity : Severity) (daysMissing : ℚ)
  | abnormal_sales (severity : Severity) (entryId : String) (date : String)
deriving DecidableEq, Repr

/-- The `severity` field shared by all validation error shapes. -/
def ValidationError.severity : ValidationError → Severity
  | .duplicate_entry s _ _ _ => s
  | .missing_dates s _ => s
  | .abnormal_sales s _ _ => s

/-- The `` `${entry.date}-${entry.registerNumber}` `` Map key of
reconciliation.js:168. -/
def dupKey (e : SalesEntry) : String := e.date ++ "-" ++ e.registerNumber

/-- The `duplicate_entry` error pushed at a repeat occurrence
(reconciliation.js:170-175): severity `high`, the repeat entry's date and
register, `affectedEntries = [first-seen id, repeat id]`. -/
def mkDupError (firstId : String) (e : SalesEntry) : ValidationError :=
  .duplicate_entry .high e.date e.registerNumber [firstId, e.id]

/-- The duplicate-detection fold of reconciliation.js:166-179.  The state is
the `dateRegisterPairs` Map as an association list from key to first-seen
entry id (keys are inserted only on a miss, so they stay unique). -/
def dupScan : List SalesEntry → List (String × String) → List ValidationError
  | [], _ => []
  | e :: rest, seen =>
    match seen.lookup (dupKey e) with
    | some firstId => mkDupError firstId e :: dupScan rest seen
    | none => dupScan rest ((dupKey e, e.id) :: seen)

/-- Duplicate `(date, registerNumber)` detection (reconciliation.js:165-179). -/
def duplicateErrors (salesData : List SalesEntry) : List ValidationError :=
  dupScan salesData []

/-- The adjacent-gap loop of reconciliation.js:183-196 over the sorted list
of distinct dates; `parseDate` stands for `new Date(...)` in epoch
milliseconds, `daysDiff` is the millisecond difference divided by 86400000. -/
def gapErrors (parseDate : String → ℚ) : List String → List ValidationError
  | d1 :: d2 :: rest =>
      let daysDiff := (parseDate d2 - parseDate d1) / 86400000
      (if daysDiff > 1 then [.missing_dates .medium (daysDiff - 1)] else []) ++
        gapErrors parseDate (d2 :: rest)
  | _ => []

/-- Missing-date detection (reconciliation.js:182-196):
`[...new Set(dates)].sort()` = distinct dates in lexicographic string order. -/
def missingDateErrors (parseDate : String → ℚ) (salesData : List SalesEntry) :
    List ValidationError :=
  gapErrors parseDate (((salesData.map (·.date)).dedup).mergeSort (fun a b => a ≤ b))

/-- All-present check on the window's `totalSales` values: in JS, a window
containing an entry with `totalSales` absent makes the `reduce` sum (and
hence `avgSales`, `stdDev` and every comparison against them) `NaN`, so no
error fires; otherwise the numeric values are used. -/
def allSome : List (Option ℚ) → Option (List ℚ)
  | [] => some []
  | none :: _ => none
  | some x :: rest => (allSome rest).map (x :: ·)

/-- The outlier test of reconciliation.js:207,
`Math.abs(x − avgSales) > 2 * stdDev && stdDev > 0` where
`stdDev = Math.sqrt(variance)`.  Over the reals, for `variance ≥ 0` this is
equivalent to `(x − avgSales)² > 4·variance ∧ variance > 0` (both sides of
the first comparison are nonnegative, squaring is monotone; see
`abnormal_sqrt_condition_iff` below), which is the decidable rational form
used here. -/
def isOutlier (avgSales variance x : ℚ) : Prop :=
  (x - avgSales) ^ 2 > 4 * variance ∧ variance > 0

instance (avgSales variance x : ℚ) : Decidable (isOutlier avgSales variance x) :=
  inferInstanceAs (Decidable (And _ _))

/-- Abnormal-sales detection (reconciliation.js:198-217): runs only with at
least 7 entries, over `salesData.slice(-7)` (the last 7 in input order),
using mean and population standard deviation of `totalSales`. -/
def abnormalErrors (salesData : List SalesEntry) : List ValidationError :=
  if 7 ≤ salesData.length then
    let recent := salesData.drop (salesData.length - 7)
    match allSome (recent.map (·.totalSales)) with
    | none => []
    | some vals =>
      let n : ℚ := (recent.length : ℚ)
      let avgSales := vals.sum / n
      let variance := (vals.map fun x => (x - avgSales) ^ 2).sum / n
      (recent.filter fun e =>
          match e.totalSales with
          | some x => decide (isOutlier avgSales variance x)
          | none => false).map
        fun e => .abnormal_sales .medium e.id e.date
  else []

/-- `validateBusinessRules` (reconciliation.js:162-220): the three scans push
into one list in source order. -/
def validateBusinessRules (parseDate : String → ℚ) (salesData : List SalesEntry) :
    List ValidationError :=
  duplicateErrors salesData ++ missingDateErrors parseDate salesData ++
    abnormalErrors salesData

/-- The summary object of `calculateSummaryMetrics` (reconciliation.js:225-253). -/
structure Summary where
  totalDiscrepancies : ℕ
  highSeverityDiscrepancies : ℕ
  totalCashVariance : ℚ
  reconciliationAccuracy : ℚ
  averageDiscrepancy : ℚ
  cashRecoveryNeeded : ℚ
deriving DecidableEq, Repr

/-- `calculateSummaryMetrics` (reconciliation.js:225-253), as a function of
the `totals` and `discrepancies` fields it reads from `results`. -/
def calculateSummaryMetrics (totals : Totals) (discrepancies : List Discrepancy) :
    Summary :=
  { totalDiscrepancies := discrepancies.length
    highSeverityDiscrepancies :=
      (discrepancies.filter fun d => d.overallSeverity = .high).length
    totalCashVariance := |totals.overallCashDifference|
    reconciliationAccuracy :=
      if 0 < totals.totalEntries then
        ((totals.totalEntries : ℚ) - (discrepancies.length : ℚ)) /
          (totals.totalEntries : ℚ) * 100
      else 100
    averageDiscrepancy :=
      if 0 < discrepancies.length then
        (discrepancies.map fun d => |d.cashDifference|).sum / (discrepancies.length : ℚ)
      else 0
    cashRecoveryNeeded :=
      ((discrepancies.filter fun d => d.cashDifference < 0).map
        fun d => |d.cashDifference|).sum }

/-- Overall status strings (reconciliation.js:258-295). -/
inductive Status
  | balanced
  | warning
  | discrepancy
  | critical
deriving DecidableEq, Repr

/-- Recommendation messages pushed by `determineOverallStatus`
(reconciliation.js:258-295), as tags (the `cashRecovery` message interpolates
the amount). -/
inductive Recommendation
  | immediateAttention
  | reviewDiscrepancies
  | investigateCashPosition
  | improveDataEntry
  | cashRecovery (amount : ℚ)
  | allChecksPassed
deriving DecidableEq, Repr

/-- The `overall` object (reconciliation.js:259-264). -/
structure Overall where
  status : Status
  confidence : ℕ
  totalDifference : ℚ
  recommendations : List Recommendation
deriving DecidableEq, Repr

/-- `determineOverallStatus` (reconciliation.js:258-295), as a function of
the fields of `results` it reads.  `validationErrors.some(e => e.severity
=== 'high')` is the decidable bounded existential. -/
def determineOverallStatus (rules : ReconciliationRules) (totals : Totals)
    (discrepancies : List Discrepancy) (validationErrors : List ValidationError)
    (summary : Summary) : Overall :=
  let totalDifference := |totals.overallCashDifference|
  let base : Status × ℕ × List Recommendation :=
    if 0 < summary.highSeverityDiscrepancies ∨
        ∃ v ∈ validationErrors, v.severity = .high then
      (.critical, 30, [.immediateAttention])
    else if 0 < discrepancies.length ∨ 0 < validationErrors.length then
      (.warning, 70, [.reviewDiscrepancies])
    else if totalDifference > rules.cashDiscrepancyThreshold then
      (.discrepancy, 60, [.investigateCashPosition])
    else
      (.balanced, 100, [])
  let recs := base.2.2 ++
    (if summary.reconciliationAccuracy < 90 then [.improveDataEntry] else []) ++
    (if summary.cashRecoveryNeeded > 0 then [.cashRecovery summary.cashRecoveryNeeded] else [])
  { status := base.1
    confidence := base.2.1
    totalDifference := totalDifference
    recommendations := if recs.isEmpty then [.allChecksPassed] else recs }

/-- One run's full result record (reconciliation.js:22-43); the ISO
`timestamp` is modelled as epoch milliseconds. -/
structure ReconciliationResult where
  timestamp : ℚ
  totals : Totals
  discrepancies : List Discrepancy
  validationErrors : List ValidationError
  summary : Summary
  overall : Overall
deriving DecidableEq, Repr

/-- `runFullReconciliation` (reconciliation.js:22-43), minus the history
side-effect (modelled separately by `saveReconciliationHistory`). -/
def runFullReconciliation (parseDate : String → ℚ) (rules : ReconciliationRules)
    (now : ℚ) (salesData : List SalesEntry) : ReconciliationResult :=
  let totals := calculateTotals salesData
  let discrepancies := findDiscrepancies rules salesData
  let validationErrors := validateBusinessRules parseDate salesData
  let summary := calculateSummaryMetrics totals discrepancies
  { timestamp := now
    totals := totals
    discrepancies := discrepancies
    validationErrors := validationErrors
    summary := summary
    overall := determineOverallStatus rules totals discrepancies validationErrors summary }

/-! ## History (reconciliation.js:507-524) -/

/-- The compact projection appended to history (reconciliation.js:508-513). -/
structure HistoryEntry where
  timestamp : ℚ
  summary : Summary
  overall : Overall
  totalEntries : ℕ
deriving DecidableEq, Repr

/-- The ` {timestamp, summary, overall, totalEntries} ` projection of a run
result (reconciliation.js:508-513). -/
def compactProjection (r : ReconciliationResult) : HistoryEntry :=
  { timestamp := r.timestamp
    summary := r.summary
    overall := r.overall
    totalEntries := r.totals.totalEntries }

/-- 90 days in milliseconds; `cutoffDate.setDate(getDate() - 90)`
(reconciliation.js:516-517) is modelled as `now - ninetyDaysMs`. -/
def ninetyDaysMs : ℚ := 90 * 86400000

/-- `saveReconciliationHistory` (reconciliation.js:507-524): push the compact
projection, then keep only entries with `new Date(timestamp) >= cutoffDate`. -/
def saveReconciliationHistory (now : ℚ) (history : List HistoryEntry)
    (r : ReconciliationResult) : List HistoryEntry :=
  (history ++ [compactProjection r]).filter fun h => now - ninetyDaysMs ≤ h.timestamp

/-- `runFullReconciliation` including its `saveReconciliationHistory` call
(reconciliation.js:40): returns the result and the updated history. -/
def runAndRecord (parseDate : String → ℚ) (rules : ReconciliationRules) (now : ℚ)
    (history : List HistoryEntry) (salesData : List SalesEntry) :
    ReconciliationResult × List HistoryEntry :=
  let r := runFullReconciliation parseDate rules now salesData
  (r, saveReconciliationHistory now history r)

/-! ## Single-entry pre-save validation (reconciliation.js:309-365) -/

/-- Error / warning messages of `validateSingleEntry`, as tags. -/
inductive VMsg
  | requiredFields
  | largeCashDiscrepancy
  | cashDiscrepancyWarning
  | highReturnsWarning
  | lowOpeningCashWarning
deriving DecidableEq, Repr

/-- The validation record of `validateSingleEntry` (reconciliation.js:331-335). -/
structure Validation where
  hasErrors : Bool
  errors : List VMsg
  warnings : List VMsg
deriving DecidableEq, Repr

/-- `validateSingleEntry` (reconciliation.js:330-365).  A JS-falsy missing
`date`/`registerNumber` is the empty string in the model.  Note the large
cash discrepancy branch (lines 344-347) also sets `hasErrors`. -/
def validateSingleEntry (rules : ReconciliationRules) (e : SalesEntry) : Validation :=
  let fieldErr := e.date = "" ∨ e.registerNumber = ""
  let cashDiff := |e.cashDifference|
  let errors :=
    (if fieldErr then [VMsg.requiredFields] else []) ++
    (if cashDiff > rules.largeDiscrepancyThreshold then [VMsg.largeCashDiscrepancy] else [])
  let warnings :=
    (if cashDiff > rules.largeDiscrepancyThreshold then []
     else if cashDiff > rules.cashDiscrepancyThreshold then [VMsg.cashDiscrepancyWarning]
     else []) ++
    (match e.totalSales with
     | some t =>
        if t > 0 ∧ e.returnsRefunds / t * 100 > rules.maxReturnsPercentage then
          [VMsg.highReturnsWarning]
        else []
     | none => []) ++
    (if e.openingCash < rules.minOpeningCash then [VMsg.lowOpeningCashWarning] else [])
  { hasErrors := decide fieldErr || decide (cashDiff > rules.largeDiscrepancyThreshold)
    errors := errors
    warnings := warnings }

/-- The result shape of `addSalesData` (reconciliation.js:309-325). -/
structure AddSalesDataResult where
  success : Bool
  errors : List VMsg
  warnings : List VMsg
deriving DecidableEq, Repr

/-- `addSalesData` (reconciliation.js:309-325): fails exactly when
`validateSingleEntry` reports `hasErrors`. -/
def addSalesData (rules : ReconciliationRules) (e : SalesEntry) : AddSalesDataResult :=
  let validation := validateSingleEntry rules e
  if validation.hasErrors then
    { success := false, errors := validation.errors, warnings := validation.warnings }
  else
    { success := true, errors := [], warnings := validation.warnings }

/-! ## Form validation (src/Code.gs:962-985) -/

/-- Error messages of `validateSalesFormData`, as tags. -/
inductive FormError
  | dateRequired
  | registerRequired
  | negativeOpeningCash
  | negativeCashSales
  | negativeCardSales
  | negativeClosingCash
  | largeCashDiscrepancy
deriving DecidableEq, Repr

/-- `validateSalesFormData` (Code.gs:962-985): the accumulated error list
(the function returns `errors.length === 0`). -/
def validateSalesFormData (d : RawSalesData) : List FormError :=
  let expectedCash := d.openingCash + d.cashSales - d.returnsRefunds - d.cashDrops
  let cashDifference := |d.closingCash - expectedCash|
  (if d.date = "" then [FormError.dateRequired] else []) ++
  (if d.registerNumber = "" then [FormError.registerRequired] else []) ++
  (if d.openingCash < 0 then [FormError.negativeOpeningCash] else []) ++
  (if d.cashSales < 0 then [FormError.negativeCashSales] else []) ++
  (if d.cardSales < 0 then [FormError.negativeCardSales] else []) ++
  (if d.closingCash < 0 then [FormError.negativeClosingCash] else []) ++
  (if cashDifference > 10 then [FormError.largeCashDiscrepancy] else [])

/-! ## Claim theorems -/

/-- **C1** (amended claim).  Every entry stored through entry creation
satisfies `expectedCash = openingCash + cashSales - returnsRefunds -
cashDrops`, `cashDifference = closingCash - expectedCash` and `totalSales =
cashSales + cardSales`; for `addSalesEntry` the stored `status` is
`'balanced'` iff `|cashDifference|` is at most the configured
`CASH_DISCREPANCY_THRESHOLD`, for every threshold value, while for
`saveSalesEntry` the status comparison is against the hard-coded literal
`5.00` regardless of any threshold configuration. -/
theorem entry_creation_derived_fields (threshold : ℚ) (entryId : String)
    (d : RawSalesData) :
    ((addSalesEntry threshold entryId d).expectedCash =
        d.openingCash + d.cashSales - d.returnsRefunds - d.cashDrops ∧
      (addSalesEntry threshold entryId d).cashDifference =
        d.closingCash - (addSalesEntry threshold entryId d).expectedCash ∧
      (addSalesEntry threshold entryId d).totalSales = d.cashSales + d.cardSales ∧
      ((addSalesEntry threshold entryId d).status = .balanced ↔
        |(addSalesEntry threshold entryId d).cashDifference| ≤ threshold)) ∧
    ((saveSalesEntry entryId d).expectedCash =
        d.openingCash + d.cashSales - d.returnsRefunds - d.cashDrops ∧
      (saveSalesEntry entryId d).cashDifference =
        d.closingCash - (saveSalesEntry entryId d).expectedCash ∧
      (saveSalesEntry entryId d).totalSales = d.cashSales + d.cardSales ∧
      ((saveSalesEntry entryId d).status = .balanced ↔
        |(saveSalesEntry entryId d).cashDifference| ≤ 5)) := by
  refine ⟨⟨rfl, rfl, rfl, ?_⟩, ⟨rfl, rfl, rfl, ?_⟩⟩ <;>
    · simp only [addSalesEntry, saveSalesEntry]
      split_ifs with h <;> simp_all

/-- Raw form data whose cash difference is `4`: closing cash `4` against an
expected cash of `0`. -/
def c1raw : RawSalesData :=
  { date := "2024-01-01", registerNumber := "REG001", openingCash := 0,
    cashSales := 0, cardSales := 0, returnsRefunds := 0, cashDrops := 0,
    closingCash := 4 }

/-- **C1** counterexample.  With `cashDiscrepancyThreshold` configured to
`3`, the entry stored by `saveSalesEntry` has `|cashDifference| = 4 > 3` yet
`status = 'balanced'`: the claimed iff fails for a non-default threshold
configuration because the code compares against the literal `5`. -/
theorem saveSalesEntry_hardcoded_threshold_cex :
    (saveSalesEntry "ENT_1" c1raw).status = .balanced ∧
      ¬(|(saveSalesEntry "ENT_1" c1raw).cashDifference| ≤ (3 : ℚ)) := by
  constructor
  · simp only [saveSalesEntry, c1raw]
    norm_num
  · simp only [saveSalesEntry, c1raw]
    norm_num

/-- **C3** (amended claim).  The pre-save single-entry validation fails
(`hasErrors = true`, `success = false`) iff the entry is missing `date` or
`registerNumber` **or** its `|cashDifference|` exceeds
`largeDiscrepancyThreshold`; smaller discrepancies and all other monetary
conditions produce at most warnings. -/
theorem single_entry_validation_failure_iff (rules : ReconciliationRules)
    (e : SalesEntry) :
    ((validateSingleEntry rules e).hasErrors = true ↔
      (e.date = "" ∨ e.registerNumber = "" ∨
        |e.cashDifference| > rules.largeDiscrepancyThreshold)) ∧
    ((addSalesData rules e).success = false ↔
      (validateSingleEntry rules e).hasErrors = true) := by
  constructor
  · simp [validateSingleEntry, or_assoc]
  · simp only [addSalesData]
    split_ifs with h <;> simp [h]

/-- An entry with both identifying fields present and a cash difference of
`100`. -/
def c3entry : SalesEntry :=
  { id := "E1", date := "2024-01-01", registerNumber := "REG001",
    openingCash := 200, cashSales := 0, cardSales := 0, returnsRefunds := 0,
    cashDrops := 0, closingCash := 0, totalSales := some 0,
    cashDifference := 100 }

/-- **C3** counterexample.  An entry with both `date` and `registerNumber`
present but `cashDifference = 100` is rejected by `validateSingleEntry`
(`hasErrors = true`) and `addSalesData` (`success = false`), so validation
failure is not limited to structurally invalid entries. -/
theorem single_entry_validation_fails_cex :
    c3entry.date ≠ "" ∧ c3entry.registerNumber ≠ "" ∧
      (validateSingleEntry defaultRules c3entry).hasErrors = true ∧
      (addSalesData defaultRules c3entry).success = false := by
  refine ⟨by decide, by decide, ?_, ?_⟩
  · simp only [validateSingleEntry, c3entry, defaultRules]
    norm_num
  · simp only [addSalesData, validateSingleEntry, c3entry, defaultRules]
    norm_num

/-- **C9**.  `cashRecoveryNeeded` is the sum of `|cashDifference|` over
exactly the discrepancies with negative `cashDifference`; appending a
surplus (nonnegative) discrepancy never changes it, and it is `0` when no
shortfall discrepancy exists. -/
theorem cash_recovery_shortfalls_only :
    (∀ (totals : Totals) (ds : List Discrepancy),
      (calculateSummaryMetrics totals ds).cashRecoveryNeeded =
        ((ds.filter fun d => d.cashDifference < 0).map
          fun d => |d.cashDifference|).sum) ∧
    (∀ (totals : Totals) (ds : List Discrepancy) (d : Discrepancy),
      0 ≤ d.cashDifference →
      (calculateSummaryMetrics totals (ds ++ [d])).cashRecoveryNeeded =
        (calculateSummaryMetrics totals ds).cashRecoveryNeeded) ∧
    (∀ (totals : Totals) (ds : List Discrepancy),
      (∀ d ∈ ds, ¬d.cashDifference < 0) →
      (calculateSummaryMetrics totals ds).cashRecoveryNeeded = 0) := by
  refine ⟨fun _ _ => rfl, fun totals ds d hd => ?_, fun totals ds h => ?_⟩
  · simp [calculateSummaryMetrics, List.filter_append, not_lt.mpr hd]
  · have hnil : ds.filter (fun d => decide (d.cashDifference < 0)) = [] :=
      List.filter_eq_nil_iff.mpr (by simpa using h)
    simp [calculateSummaryMetrics, hnil]

/-- A shortfall discrepancy (cash difference `-60`). -/
def c9short : Discrepancy :=
  { entryId := "E1", date := "2024-01-01", registerNumber := "REG001",
    cashDifference := -60, issues := [], overallSeverity := .high }

/-- A surplus discrepancy (cash difference `25`). -/
def c9surplus : Discrepancy :=
  { entryId := "E2", date := "2024-01-02", registerNumber := "REG001",
    cashDifference := 25, issues := [], overallSeverity := .medium }

/-- Witness for `cash_recovery_shortfalls_only` at a mixed-sign input. -/
theorem cash_recovery_shortfalls_only_witness :
    (0 : ℚ) ≤ c9surplus.cashDifference ∧
    (calculateSummaryMetrics (calculateTotals []) ([c9short] ++ [c9surplus])).cashRecoveryNeeded =
      (calculateSummaryMetrics (calculateTotals []) [c9short]).cashRecoveryNeeded ∧
    (calculateSummaryMetrics (calculateTotals []) [c9surplus]).cashRecoveryNeeded = 0 :=
  ⟨by decide,
   cash_recovery_shortfalls_only.2.1 (calculateTotals []) [c9short] c9surplus (by decide),
   cash_recovery_shortfalls_only.2.2 (calculateTotals []) [c9surplus] (by decide)⟩

/-- **C10**.  After every run's history append, every stored element's
timestamp is at least `now - 90 days`, the new history is the old one pruned
to that window with the compact projection `{timestamp, summary, overall,
totalEntries}` of the run appended, and that appended element carries the
run's timestamp (= `now`). -/
theorem history_append_prune_invariant (parseDate : String → ℚ)
    (rules : ReconciliationRules) (now : ℚ) (history : List HistoryEntry)
    (salesData : List SalesEntry) :
    (∀ h ∈ (runAndRecord parseDate rules now history salesData).2,
      now - ninetyDaysMs ≤ h.timestamp) ∧
    (runAndRecord parseDate rules now history salesData).2 =
      (history.filter fun h => now - ninetyDaysMs ≤ h.timestamp) ++
        [compactProjection (runAndRecord parseDate rules now history salesData).1] ∧
    compactProjection (runAndRecord parseDate rules now history salesData).1 =
      { timestamp := now
        summary := (runAndRecord parseDate rules now history salesData).1.summary
        overall := (runAndRecord parseDate rules now history salesData).1.overall
        totalEntries :=
          (runAndRecord parseDate rules now history salesData).1.totals.totalEntries } := by
  refine ⟨fun h hm => ?_, ?_, rfl⟩
  · simpa using List.of_mem_filter hm
  · show (history ++ [_]).filter _ = _
    rw [List.filter_append]
    congr 1
    have hc : decide (now - ninetyDaysMs ≤
        (compactProjection (runFullReconciliation parseDate rules now salesData)).timestamp) =
        true := by
      rw [decide_eq_true_eq]
      show now - ninetyDaysMs ≤ now
      have : (0 : ℚ) ≤ ninetyDaysMs := by norm_num [ninetyDaysMs]
      linarith
    rw [List.filter_singleton, hc, cond_true]
    rfl

/-- **C8**.  Degenerate-denominator guards: an entry with `totalSales` equal
to `0` (or absent) never receives a `high_returns` issue (its returns
percentage is treated as `0`; stated for nonnegative configured
`maxReturnsPercentage`, as in the default rules), a run over zero entries
has `reconciliationAccuracy = 100`, and `averageDiscrepancy = 0` when there
are no discrepancies. -/
theorem degenerate_math_guards :
    (∀ (rules : ReconciliationRules) (e : SalesEntry),
      0 ≤ rules.maxReturnsPercentage →
      (e.totalSales = some 0 ∨ e.totalSales = none) →
      IssueType.high_returns ∉ (entryIssues rules e).map Issue.type) ∧
    (∀ (parseDate : String → ℚ) (rules : ReconciliationRules) (now : ℚ),
      (runFullReconciliation parseDate rules now []).summary.reconciliationAccuracy = 100) ∧
    (∀ totals : Totals, (calculateSummaryMetrics totals []).averageDiscrepancy = 0) := by
  refine ⟨?_, fun _ _ _ => rfl, fun _ => rfl⟩
  intro rules e hmax hts
  have hmax' : ¬((0 : ℚ) > rules.maxReturnsPercentage) := not_lt.mpr hmax
  rcases hts with h | h <;>
  · simp only [entryIssues, h]
    simp only [gt_iff_lt, lt_self_iff_false, if_false, reduceIte]
    simp only [if_neg hmax']
    split_ifs <;> simp

/-- An entry with zero total sales and positive returns: the returns
percentage is treated as `0`, not `∞`/`NaN`. -/
def c8entry : SalesEntry :=
  { id := "E8", date := "2024-01-01", registerNumber := "REG001",
    openingCash := 100, cashSales := 0, cardSales := 0, returnsRefunds := 5,
    cashDrops := 0, closingCash := 95, totalSales := some 0,
    cashDifference := 0 }

/-- Witness for `degenerate_math_guards`. -/
theorem degenerate_math_guards_witness :
    ((0 : ℚ) ≤ defaultRules.maxReturnsPercentage ∧
      IssueType.high_returns ∉ (entryIssues defaultRules c8entry).map Issue.type) ∧
    (runFullReconciliation (fun _ => 0) defaultRules 0 []).summary.reconciliationAccuracy = 100 ∧
    (calculateSummaryMetrics (calculateTotals []) []).averageDiscrepancy = 0 :=
  ⟨⟨by norm_num [defaultRules],
    degenerate_math_guards.1 defaultRules c8entry (by norm_num [defaultRules]) (Or.inl rfl)⟩,
   degenerate_math_guards.2.1 (fun _ => 0) defaultRules 0,
   degenerate_math_guards.2.2 (calculateTotals [])⟩

/-- **C2**.  `determineOverallStatus` is a first-match decision ladder: on
every run, the overall status/confidence is `critical`/30 if some
discrepancy has `overallSeverity = high` or some validation error has
`severity = high`; else `warning`/70 if any discrepancies or validation
errors exist; else `discrepancy`/60 if `totalCashVariance` (which equals
`|overallCashDifference|`, and equals the `totalDifference` the ladder
tests) exceeds `cashDiscrepancyThreshold`; else `balanced`/100. -/
theorem overall_status_decision_ladder (parseDate : String → ℚ)
    (rules : ReconciliationRules) (now : ℚ) (salesData : List SalesEntry) :
    ((runFullReconciliation parseDate rules now salesData).overall.status,
        (runFullReconciliation parseDate rules now salesData).overall.confidence) =
      (if (∃ d ∈ (runFullReconciliation parseDate rules now salesData).discrepancies,
              d.overallSeverity = .high) ∨
            ∃ v ∈ (runFullReconciliation parseDate rules now salesData).validationErrors,
              v.severity = .high then
          (Status.critical, 30)
        else if (runFullReconciliation parseDate rules now salesData).discrepancies ≠ [] ∨
            (runFullReconciliation parseDate rules now salesData).validationErrors ≠ [] then
          (Status.warning, 70)
        else if (runFullReconciliation parseDate rules now salesData).summary.totalCashVariance >
            rules.cashDiscrepancyThreshold then
          (Status.discrepancy, 60)
        else (Status.balanced, 100)) ∧
    (runFullReconciliation parseDate rules now salesData).summary.totalCashVariance =
      |(runFullReconciliation parseDate rules now salesData).totals.overallCashDifference| ∧
    (runFullReconciliation parseDate rules now salesData).overall.totalDifference =
      (runFullReconciliation parseDate rules now salesData).summary.totalCashVariance := by
  refine ⟨?_, rfl, rfl⟩
  have hhigh : (0 < ((findDiscrepancies rules salesData).filter
        fun d => decide (d.overallSeverity = Severity.high)).length) ↔
      ∃ d ∈ findDiscrepancies rules salesData, d.overallSeverity = Severity.high := by
    rw [List.length_pos, Ne, List.filter_eq_nil_iff]
    push_neg
    simp
  dsimp only [runFullReconciliation, determineOverallStatus, calculateSummaryMetrics]
  simp only [hhigh, List.length_pos]
  split_ifs <;> rfl

/-! ### Helper lemmas about the severity sort and issue lists -/

lemma insertDesc_perm (d : Discrepancy) (l : List Discrepancy) :
    List.Perm (insertDesc d l) (d :: l) := by
  induction l with
  | nil => exact List.Perm.refl _
  | cons e rest ih =>
    simp only [insertDesc]
    split_ifs
    · exact (ih.cons e).trans (List.Perm.swap d e rest)
    · exact List.Perm.refl _

lemma sortBySeverityDesc_perm (l : List Discrepancy) :
    List.Perm (sortBySeverityDesc l) l := by
  induction l with
  | nil => exact List.Perm.refl _
  | cons d rest ih => exact (insertDesc_perm d _).trans (ih.cons d)

lemma negative_values_mem_entryIssues (rules : ReconciliationRules) (e : SalesEntry)
    (h : e.cashSales < 0 ∨ e.cardSales < 0 ∨ e.closingCash < 0) :
    ({ type := .negative_values, severity := .high, amount := none,
       percentage := none } : Issue) ∈ entryIssues rules e := by
  simp only [entryIssues]
  refine List.mem_append.mpr (Or.inr ?_)
  rw [if_pos h]
  exact List.mem_singleton_self _

lemma overallSeverity_high_of_mem {issues : List Issue} {i : Issue}
    (hi : i ∈ issues) (hs : i.severity = .high) :
    calculateOverallSeverity issues = .high := by
  unfold calculateOverallSeverity
  rw [if_pos]
  exact List.any_eq_true.mpr ⟨i, hi, by simp [hs]⟩

/-- **C5** (amended claim).  Negativity is only partially enforced: any entry
with negative `cashSales`, `cardSales` or `closingCash` is flagged by
`findDiscrepancies` with a `negative_values` issue of severity `high` (and
the discrepancy's `overallSeverity` is `high`), and the form validation
`validateSalesFormData` additionally rejects those three plus a negative
`openingCash`; negative `returnsRefunds` or `cashDrops` are not covered by
these checks. -/
theorem negative_values_flagging_scope :
    (∀ (rules : ReconciliationRules) (salesData : List SalesEntry) (e : SalesEntry),
      e ∈ salesData →
      (e.cashSales < 0 ∨ e.cardSales < 0 ∨ e.closingCash < 0) →
      ∃ d ∈ findDiscrepancies rules salesData,
        d.entryId = e.id ∧ d.overallSeverity = .high ∧
          ({ type := .negative_values, severity := .high, amount := none,
             percentage := none } : Issue) ∈ d.issues) ∧
    (∀ d : RawSalesData, d.openingCash < 0 →
      FormError.negativeOpeningCash ∈ validateSalesFormData d) ∧
    (∀ d : RawSalesData, d.cashSales < 0 →
      FormError.negativeCashSales ∈ validateSalesFormData d) ∧
    (∀ d : RawSalesData, d.cardSales < 0 →
      FormError.negativeCardSales ∈ validateSalesFormData d) ∧
    (∀ d : RawSalesData, d.closingCash < 0 →
      FormError.negativeClosingCash ∈ validateSalesFormData d) := by
  refine ⟨?_, ?_, ?_, ?_, ?_⟩
  · intro rules salesData e he hneg
    have hmem := negative_values_mem_entryIssues rules e hneg
    have hne : (entryIssues rules e).isEmpty = false := by
      rcases hq : entryIssues rules e with _ | _
      · rw [hq] at hmem; cases hmem
      · rfl
    refine ⟨{ entryId := e.id, date := e.date, registerNumber := e.registerNumber
              cashDifference := e.cashDifference, issues := entryIssues rules e
              overallSeverity := calculateOverallSeverity (entryIssues rules e) },
        ?_, rfl, overallSeverity_high_of_mem hmem rfl, hmem⟩
    refine ((sortBySeverityDesc_perm _).mem_iff).mpr ?_
    exact List.mem_filterMap.mpr ⟨e, he, by simp [hne]⟩
  all_goals
    intro d hd
    simp [validateSalesFormData, hd]

/-- An entry with negative `cashSales`, for the witness below. -/
def c5bad : SalesEntry :=
  { id := "B1", date := "2024-01-02", registerNumber := "REG002",
    openingCash := 100, cashSales := -5, cardSales := 10, returnsRefunds := 0,
    cashDrops := 0, closingCash := 105, totalSales := some 5,
    cashDifference := 0 }

/-- Raw form data with all four checked fields negative. -/
def c5badraw : RawSalesData :=
  { date := "2024-01-02", registerNumber := "REG002", openingCash := -1,
    cashSales := -5, cardSales := -2, returnsRefunds := 0, cashDrops := 0,
    closingCash := -3 }

/-- Witness for `negative_values_flagging_scope`. -/
theorem negative_values_flagging_scope_witness :
    (∃ d ∈ findDiscrepancies defaultRules [c5bad],
      d.entryId = c5bad.id ∧ d.overallSeverity = .high ∧
        ({ type := .negative_values, severity := .high, amount := none,
           percentage := none } : Issue) ∈ d.issues) ∧
    FormError.negativeOpeningCash ∈ validateSalesFormData c5badraw ∧
    FormError.negativeCashSales ∈ validateSalesFormData c5badraw ∧
    FormError.negativeCardSales ∈ validateSalesFormData c5badraw ∧
    FormError.negativeClosingCash ∈ validateSalesFormData c5badraw :=
  ⟨negative_values_flagging_scope.1 defaultRules [c5bad] c5bad
    (List.mem_singleton_self _) (Or.inl (by norm_num [c5bad])),
   negative_values_flagging_scope.2.1 c5badraw (by norm_num [c5badraw]),
   negative_values_flagging_scope.2.2.1 c5badraw (by norm_num [c5badraw]),
   negative_values_flagging_scope.2.2.2.1 c5badraw (by norm_num [c5badraw]),
   negative_values_flagging_scope.2.2.2.2 c5badraw (by norm_num [c5badraw])⟩

/-- An entry with negative `returnsRefunds` that is internally consistent:
expected cash `160`, closing cash `160`, cash difference `0`. -/
def c5entry : SalesEntry :=
  { id := "E9", date := "2024-01-01", registerNumber := "REG001",
    openingCash := 100, cashSales := 50, cardSales := 50,
    returnsRefunds := -10, cashDrops := 0, closingCash := 160,
    totalSales := some 100, cashDifference := 0 }

/-- The same record as raw form data. -/
def c5raw : RawSalesData :=
  { date := "2024-01-01", registerNumber := "REG001", openingCash := 100,
    cashSales := 50, cardSales := 50, returnsRefunds := -10, cashDrops := 0,
    closingCash := 160 }

/-- **C5** counterexample.  An entry with negative `returnsRefunds` passes
every check unflagged: `findDiscrepancies` reports nothing (the
`negative_values` check only looks at `cashSales`, `cardSales`,
`closingCash`), the cross-entry validator reports nothing, the form
validation accepts it, and `validateSingleEntry` produces neither errors
nor warnings. -/
theorem negative_returns_unflagged_cex :
    c5entry.returnsRefunds < 0 ∧
    findDiscrepancies defaultRules [c5entry] = [] ∧
    validateBusinessRules (fun _ => 0) [c5entry] = [] ∧
    validateSalesFormData c5raw = [] ∧
    (validateSingleEntry defaultRules c5entry).hasErrors = false ∧
    (validateSingleEntry defaultRules c5entry).warnings = [] := by
  have hfd : findDiscrepancies defaultRules [c5entry] = [] := by
    simp only [findDiscrepancies, List.filterMap, entryIssues, c5entry, defaultRules]
    norm_num [sortBySeverityDesc]
  refine ⟨by norm_num [c5entry], hfd, ?_, ?_, ?_, ?_⟩
  · simp only [validateBusinessRules, duplicateErrors, dupScan, missingDateErrors,
      abnormalErrors, c5entry]
    norm_num [gapErrors, allSome]
  · simp only [validateSalesFormData, c5raw]
    norm_num
    exact ⟨by decide, by decide⟩
  · simp only [validateSingleEntry, c5entry, defaultRules]
    norm_num
    exact ⟨by decide, by decide⟩
  · simp only [validateSingleEntry, c5entry, defaultRules]
    norm_num

/-! ### Missing `totalSales` (C4) -/

/-- The spec-side transformation of C4: fill in `totalSales` as
`cashSales + cardSales`. -/
def fillTotalSales (e : SalesEntry) : SalesEntry :=
  { e with totalSales := some (e.cashSales + e.cardSales) }

lemma totalSalesOrDefault_fill (e : SalesEntry) :
    totalSalesOrDefault (fillTotalSales e) = e.cashSales + e.cardSales := by
  simp only [totalSalesOrDefault, fillTotalSales]
  split_ifs <;> rfl

lemma totalSalesOrDefault_none {e : SalesEntry} (h : e.totalSales = none) :
    totalSalesOrDefault e = e.cashSales + e.cardSales := by
  simp [totalSalesOrDefault, h]

lemma allSome_eq_none_of_mem {l : List (Option ℚ)} (h : none ∈ l) :
    allSome l = none := by
  induction l with
  | nil => cases h
  | cons x rest ih =>
    cases x with
    | none => rfl
    | some v =>
      rcases List.mem_cons.mp h with h | h
      · cases h
      · simp [allSome, ih h]

/-- **C4** (amended claim).  Only the totals calculator substitutes
`cashSales + cardSales` for an absent `totalSales`: a run's totals agree
with the filled-in totals whenever `totalSales` is omitted; but
`findDiscrepancies` uses `totalSales` as-is, so with `totalSales` absent the
`zero_sales` check never fires (and, for a nonnegative configured
`maxReturnsPercentage`, neither does `high_returns`), and abnormal-sales
detection is disabled for any 7-entry window containing an entry with
absent `totalSales`. -/
theorem totalSales_tolerance_scope :
    (∀ salesData : List SalesEntry, (∀ e ∈ salesData, e.totalSales = none) →
      calculateTotals (salesData.map fillTotalSales) = calculateTotals salesData) ∧
    (∀ (rules : ReconciliationRules) (e : SalesEntry), e.totalSales = none →
      (IssueType.zero_sales ∉ (entryIssues rules e).map Issue.type) ∧
      (0 ≤ rules.maxReturnsPercentage →
        IssueType.high_returns ∉ (entryIssues rules e).map Issue.type)) ∧
    (∀ salesData : List SalesEntry, 7 ≤ salesData.length →
      (∃ e ∈ salesData.drop (salesData.length - 7), e.totalSales = none) →
      abnormalErrors salesData = []) := by
  refine ⟨?_, ?_, ?_⟩
  · intro salesData hnone
    have h1 : (salesData.map fillTotalSales).map totalSalesOrDefault =
        salesData.map totalSalesOrDefault := by
      rw [List.map_map]
      refine List.map_congr_left fun e he => ?_
      rw [Function.comp_apply, totalSalesOrDefault_fill,
        totalSalesOrDefault_none (hnone e he)]
    simp only [calculateTotals, h1, List.map_map, List.length_map]
    rfl
  · intro rules e hnone
    constructor
    · simp only [entryIssues, hnone]
      split_ifs <;> simp_all
    · intro hmax
      have hmax' : ¬((0 : ℚ) > rules.maxReturnsPercentage) := not_lt.mpr hmax
      simp only [entryIssues, hnone]
      simp only [if_neg hmax']
      split_ifs <;> simp_all
  · intro salesData h7 hex
    obtain ⟨e, he, hnone⟩ := hex
    have hmem : (none : Option ℚ) ∈
        (salesData.drop (salesData.length - 7)).map (·.totalSales) :=
      List.mem_map.mpr ⟨e, he, hnone⟩
    have hnone' : allSome ((salesData.drop (salesData.length - 7)).map (·.totalSales)) =
        none := allSome_eq_none_of_mem hmem
    simp only [abnormalErrors, if_pos h7, hnone']

/-- An internally consistent entry with `totalSales` absent and no sales. -/
def c4abs : SalesEntry :=
  { id := "E1", date := "2024-01-01", registerNumber := "REG001",
    openingCash := 100, cashSales := 0, cardSales := 0, returnsRefunds := 0,
    cashDrops := 0, closingCash := 100, totalSales := none,
    cashDifference := 0 }

/-- **C4** counterexample.  Filling in `totalSales = cashSales + cardSales`
changes the outcome of a run: with `totalSales` absent the entry gets no
discrepancy, with `totalSales = 0` filled in it gets a `zero_sales`
discrepancy, so the two runs' results differ. -/
theorem missing_totalSales_not_recomputed_cex :
    c4abs.totalSales = none ∧
    (fillTotalSales c4abs).totalSales = some (c4abs.cashSales + c4abs.cardSales) ∧
    findDiscrepancies defaultRules [c4abs] = [] ∧
    findDiscrepancies defaultRules [fillTotalSales c4abs] ≠ [] ∧
    runFullReconciliation (fun _ => 0) defaultRules 0 [c4abs] ≠
      runFullReconciliation (fun _ => 0) defaultRules 0 [fillTotalSales c4abs] := by
  have habs : findDiscrepancies defaultRules [c4abs] = [] := by
    simp only [findDiscrepancies, List.filterMap, entryIssues, c4abs, defaultRules]
    norm_num [sortBySeverityDesc]
  have hfill : findDiscrepancies defaultRules [fillTotalSales c4abs] ≠ [] := by
    simp only [findDiscrepancies, List.filterMap, entryIssues, fillTotalSales, c4abs,
      defaultRules]
    norm_num [sortBySeverityDesc, insertDesc]
  refine ⟨rfl, rfl, habs, hfill, fun hEq => ?_⟩
  have := congrArg (fun r => r.discrepancies) hEq
  simp only at this
  rw [show (runFullReconciliation (fun _ => 0) defaultRules 0 [c4abs]).discrepancies =
      findDiscrepancies defaultRules [c4abs] from rfl,
    show (runFullReconciliation (fun _ => 0) defaultRules 0
        [fillTotalSales c4abs]).discrepancies =
      findDiscrepancies defaultRules [fillTotalSales c4abs] from rfl, habs] at this
  exact hfill this.symm

/-- A 7-entry collection whose last window contains an absent `totalSales`. -/
def c4seven : List SalesEntry :=
  [c4abs, c4abs, c4abs, c4abs, c4abs, c4abs, c4abs]

/-- Witness for `totalSales_tolerance_scope`. -/
theorem totalSales_tolerance_scope_witness :
    calculateTotals ([c4abs].map fillTotalSales) = calculateTotals [c4abs] ∧
    (IssueType.zero_sales ∉ (entryIssues defaultRules c4abs).map Issue.type) ∧
    (IssueType.high_returns ∉ (entryIssues defaultRules c4abs).map Issue.type) ∧
    abnormalErrors c4seven = [] :=
  ⟨totalSales_tolerance_scope.1 [c4abs] (by decide),
   (totalSales_tolerance_scope.2.1 defaultRules c4abs rfl).1,
   (totalSales_tolerance_scope.2.1 defaultRules c4abs rfl).2 (by norm_num [defaultRules]),
   totalSales_tolerance_scope.2.2 c4seven (by decide)
     ⟨c4abs, by simp [c4seven], rfl⟩⟩

/-! ### Duplicate detection (C6) -/

/-- `true` on duplicate errors whose recorded date/register concatenate to
the Map key `k`. -/
def errKeyMatches (k : String) : ValidationError → Bool
  | .duplicate_entry _ d2 r2 _ => d2 ++ "-" ++ r2 = k
  | _ => false

/-- `true` on duplicate errors recorded for the pair `(d, r)`. -/
def isDupErrorFor (d r : String) : ValidationError → Bool
  | .duplicate_entry _ d2 r2 _ => d2 = d ∧ r2 = r
  | _ => false

/-- The errors the claim expects for one group: one per entry after the
first, each referencing the first entry's id and the repeat's id. -/
def dupTailMap : List SalesEntry → List ValidationError
  | [] => []
  | first :: rest => rest.map (mkDupError first.id)

/-- The key-level outcome of the scan, as a function of the state's lookup. -/
def dupExpected (es : List SalesEntry) (k : String) : Option String → List ValidationError
  | some fid => (es.filter fun e => dupKey e = k).map (mkDupError fid)
  | none => dupTailMap (es.filter fun e => dupKey e = k)

lemma dupTailMap_length (l : List SalesEntry) :
    (dupTailMap l).length = l.length - 1 := by
  cases l <;> simp [dupTailMap]

lemma dupScan_filter_key (k : String) (es : List SalesEntry) :
    ∀ seen : List (String × String),
      (dupScan es seen).filter (errKeyMatches k) =
        dupExpected es k (seen.lookup k) := by
  induction es with
  | nil =>
    intro seen
    cases h : seen.lookup k <;> simp [dupScan, dupExpected, dupTailMap]
  | cons e rest ih =>
    intro seen
    by_cases hk : dupKey e = k
    · cases hl : seen.lookup (dupKey e) with
      | some fid =>
        have hl' : seen.lookup k = some fid := by rw [← hk]; exact hl
        have hkey : errKeyMatches k (mkDupError fid e) = true := by
          simp only [errKeyMatches, mkDupError, decide_eq_true_eq]
          exact hk
        simp only [dupScan, hl]
        rw [List.filter_cons_of_pos hkey, ih seen, hl']
        simp only [dupExpected]
        rw [List.filter_cons_of_pos (by simp [hk])]
        rfl
      | none =>
        have hl' : seen.lookup k = none := by rw [← hk]; exact hl
        simp only [dupScan, hl]
        rw [ih ((dupKey e, e.id) :: seen)]
        have hlook : ((dupKey e, e.id) :: seen).lookup k = some e.id := by
          simp [List.lookup_cons, hk]
        rw [hlook, hl']
        simp only [dupExpected]
        rw [List.filter_cons_of_pos (by simp [hk])]
        rfl
    · cases hl : seen.lookup (dupKey e) with
      | some fid =>
        have hkey : errKeyMatches k (mkDupError fid e) = false := by
          simp only [errKeyMatches, mkDupError, decide_eq_false_iff_not]
          exact hk
        simp only [dupScan, hl]
        rw [List.filter_cons_of_neg (by simp [hkey]), ih seen]
        cases hl2 : seen.lookup k <;>
          · simp only [dupExpected]
            rw [List.filter_cons_of_neg (by simp [hk])]
      | none =>
        simp only [dupScan, hl]
        rw [ih ((dupKey e, e.id) :: seen)]
        have hlook : ((dupKey e, e.id) :: seen).lookup k = seen.lookup k := by
          have : (k == dupKey e) = false := by
            simp only [beq_eq_false_iff_ne, ne_eq]
            exact fun hcontra => hk hcontra.symm
          simp [List.lookup_cons, this]
        rw [hlook]
        cases hl2 : seen.lookup k <;>
          · simp only [dupExpected]
            rw [List.filter_cons_of_neg (by simp [hk])]

/-- **C6**.  For every collection whose well-formed `(date, registerNumber)`
pairs concatenate injectively into the scan's string key (the data model's
fixed-format dates and register codes guarantee this; the hypothesis rules
out contrived strings where `date + "-" + register` collides across distinct
pairs), the group of entries sharing a pair `(d, r)` produces exactly
`count − 1` `duplicate_entry` errors — one per entry after the first, each
of severity `high`, referencing the first-seen entry's id and the repeat's
id — and a unique pair produces none. -/
theorem duplicate_entry_error_counts (es : List SalesEntry)
    (hinj : ∀ e1 ∈ es, ∀ e2 ∈ es, dupKey e1 = dupKey e2 →
      e1.date = e2.date ∧ e1.registerNumber = e2.registerNumber)
    (d r : String) :
    (duplicateErrors es).filter (isDupErrorFor d r) =
      dupTailMap (es.filter fun e => e.date = d ∧ e.registerNumber = r) ∧
    ((duplicateErrors es).filter (isDupErrorFor d r)).length =
      (es.filter fun e => e.date = d ∧ e.registerNumber = r).length - 1 := by
  have hbase : (duplicateErrors es).filter (errKeyMatches (d ++ "-" ++ r)) =
      dupTailMap (es.filter fun e => dupKey e = d ++ "-" ++ r) := by
    have h := dupScan_filter_key (d ++ "-" ++ r) es []
    simpa [duplicateErrors, dupExpected] using h
  have hsubset : (duplicateErrors es).filter (isDupErrorFor d r) =
      ((duplicateErrors es).filter (errKeyMatches (d ++ "-" ++ r))).filter
        (isDupErrorFor d r) := by
    rw [List.filter_filter]
    apply List.filter_congr
    intro err _
    cases err with
    | duplicate_entry s d2 r2 a =>
      by_cases h2 : d2 = d ∧ r2 = r
      · simp [isDupErrorFor, errKeyMatches, h2.1, h2.2]
      · simp [isDupErrorFor, errKeyMatches, h2]
    | missing_dates s dm => simp [isDupErrorFor]
    | abnormal_sales s i dt => simp [isDupErrorFor]
  have hmain : (duplicateErrors es).filter (isDupErrorFor d r) =
      dupTailMap (es.filter fun e => e.date = d ∧ e.registerNumber = r) := by
    by_cases hgrp : ∃ e0 ∈ es, e0.date = d ∧ e0.registerNumber = r
    · obtain ⟨e0, he0, hd0, hr0⟩ := hgrp
      have hfeq : (es.filter fun e => dupKey e = d ++ "-" ++ r) =
          es.filter fun e => e.date = d ∧ e.registerNumber = r := by
        apply List.filter_congr
        intro e he
        by_cases hp : e.date = d ∧ e.registerNumber = r
        · simp [dupKey, hp.1, hp.2]
        · have hnk : ¬dupKey e = d ++ "-" ++ r := by
            intro hkey
            have hk0 : dupKey e0 = d ++ "-" ++ r := by
              simp [dupKey, hd0, hr0]
            have hpair := hinj e he e0 he0 (hkey.trans hk0.symm)
            exact hp ⟨hpair.1.trans hd0, hpair.2.trans hr0⟩
          simp [hp, hnk]
      have hall : ∀ err ∈ dupTailMap
          (es.filter fun e => e.date = d ∧ e.registerNumber = r),
          isDupErrorFor d r err = true := by
        intro err herr
        cases hgl : es.filter fun e => e.date = d ∧ e.registerNumber = r with
        | nil => rw [hgl] at herr; cases herr
        | cons first restg =>
          rw [hgl] at herr
          simp only [dupTailMap] at herr
          obtain ⟨e, hee, rfl⟩ := List.mem_map.mp herr
          have hef : e ∈ es.filter fun e => e.date = d ∧ e.registerNumber = r := by
            rw [hgl]; exact List.mem_cons_of_mem _ hee
          have hpair := List.of_mem_filter hef
          simp only [decide_eq_true_eq] at hpair
          simp [isDupErrorFor, mkDupError, hpair.1, hpair.2]
      rw [hsubset, hbase, hfeq]
      exact List.filter_eq_self.mpr hall
    · have hgrpnil : (es.filter fun e => e.date = d ∧ e.registerNumber = r) = [] := by
        rw [List.filter_eq_nil_iff]
        intro a ha
        simp only [decide_eq_true_eq]
        exact fun hp => hgrp ⟨a, ha, hp⟩
      rw [hsubset, hbase, hgrpnil]
      simp only [dupTailMap]
      rw [List.filter_eq_nil_iff]
      intro err herr
      cases hgl : es.filter fun e => dupKey e = d ++ "-" ++ r with
      | nil => rw [hgl] at herr; cases herr
      | cons first restg =>
        rw [hgl] at herr
        simp only [dupTailMap] at herr
        obtain ⟨e, hee, rfl⟩ := List.mem_map.mp herr
        have hem : e ∈ es := List.mem_of_mem_filter
          (l := es) (by rw [hgl]; exact List.mem_cons_of_mem _ hee)
        have hnp : ¬(e.date = d ∧ e.registerNumber = r) :=
          fun hp => hgrp ⟨e, hem, hp⟩
        simp [isDupErrorFor, mkDupError, hnp]
  exact ⟨hmain, by rw [hmain, dupTailMap_length]⟩

/-- Three entries sharing the pair `(2024-01-01, REG001)` and one unique
entry, for the witness below. -/
def c6entries : List SalesEntry :=
  [{ id := "A1", date := "2024-01-01", registerNumber := "REG001",
     openingCash := 100, cashSales := 10, cardSales := 0, returnsRefunds := 0,
     cashDrops := 0, closingCash := 110, totalSales := some 10, cashDifference := 0 },
   { id := "A2", date := "2024-01-01", registerNumber := "REG001",
     openingCash := 100, cashSales := 20, cardSales := 0, returnsRefunds := 0,
     cashDrops := 0, closingCash := 120, totalSales := some 20, cashDifference := 0 },
   { id := "B1", date := "2024-01-02", registerNumber := "REG002",
     openingCash := 100, cashSales := 30, cardSales := 0, returnsRefunds := 0,
     cashDrops := 0, closingCash := 130, totalSales := some 30, cashDifference := 0 },
   { id := "A3", date := "2024-01-01", registerNumber := "REG001",
     openingCash := 100, cashSales := 40, cardSales := 0, returnsRefunds := 0,
     cashDrops := 0, closingCash := 140, totalSales := some 40, cashDifference := 0 }]

/-- Witness for `duplicate_entry_error_counts`: the triplicated pair yields
`3 - 1` errors, the unique pair `1 - 1 = 0`. -/
theorem duplicate_entry_error_counts_witness :
    ((duplicateErrors c6entries).filter (isDupErrorFor "2024-01-01" "REG001") =
        dupTailMap (c6entries.filter fun e =>
          e.date = "2024-01-01" ∧ e.registerNumber = "REG001") ∧
      ((duplicateErrors c6entries).filter (isDupErrorFor "2024-01-01" "REG001")).length =
        (c6entries.filter fun e =>
          e.date = "2024-01-01" ∧ e.registerNumber = "REG001").length - 1) ∧
    ((duplicateErrors c6entries).filter (isDupErrorFor "2024-01-02" "REG002")).length =
      (c6entries.filter fun e =>
        e.date = "2024-01-02" ∧ e.registerNumber = "REG002").length - 1 :=
  ⟨duplicate_entry_error_counts c6entries (by decide) "2024-01-01" "REG001",
   (duplicate_entry_error_counts c6entries (by decide) "2024-01-02" "REG002").2⟩

/-! ### Abnormal-sales detection (C7) -/

/-- Justification for the rational form of the outlier test `isOutlier`:
over the reals, `|d| > 2·√v` together with `√v > 0` (the source's
`Math.abs(x − avg) > 2 * stdDev && stdDev > 0`) is equivalent to `d² > 4·v`
together with `v > 0`, whenever `v ≥ 0`. -/
lemma abnormal_sqrt_condition_iff (d v : ℝ) (_hv : 0 ≤ v) :
    (|d| > 2 * Real.sqrt v ∧ Real.sqrt v > 0) ↔ (d ^ 2 > 4 * v ∧ v > 0) := by
  have h4 : Real.sqrt (4 * v) = 2 * Real.sqrt v := by
    rw [show (4 : ℝ) * v = 2 ^ 2 * v by norm_num,
      Real.sqrt_mul (by positivity), Real.sqrt_sq (by norm_num)]
  constructor
  · rintro ⟨h1, h2⟩
    refine ⟨?_, Real.sqrt_pos.mp h2⟩
    by_contra hcon
    push_neg at hcon
    have hle : Real.sqrt (d ^ 2) ≤ Real.sqrt (4 * v) := Real.sqrt_le_sqrt hcon
    rw [h4, Real.sqrt_sq_eq_abs] at hle
    linarith
  · rintro ⟨h1, h2⟩
    refine ⟨?_, Real.sqrt_pos.mpr h2⟩
    have hlt : Real.sqrt (4 * v) < Real.sqrt (d ^ 2) :=
      Real.sqrt_lt_sqrt (by positivity) h1
    rw [h4, Real.sqrt_sq_eq_abs] at hlt
    exact hlt

lemma allSome_eq_some_of_forall {l : List (Option ℚ)} {c : ℚ}
    (h : ∀ x ∈ l, x = some c) :
    allSome l = some (List.replicate l.length c) := by
  induction l with
  | nil => rfl
  | cons x rest ih =>
    have hx : x = some c := h x (List.mem_cons_self _ _)
    subst hx
    simp [allSome, ih fun x hx => h x (List.mem_cons_of_mem _ hx),
      List.replicate_succ]

/-- **C7**.  Abnormal-sales detection: (1) never fires for fewer than 7
entries; (2) with at least 7 entries (all window `totalSales` present) it
examines exactly the last 7 entries in input order and flags exactly the
window entries whose `totalSales` is an outlier for the window mean and
population variance (the rational form of "deviates by more than 2 standard
deviations and the standard deviation is positive"); (3) a zero-variance
window — all window `totalSales` equal — never fires. -/
theorem abnormal_sales_window_behaviour :
    (∀ salesData : List SalesEntry, salesData.length < 7 →
      abnormalErrors salesData = []) ∧
    (∀ (salesData : List SalesEntry) (vals : List ℚ), 7 ≤ salesData.length →
      allSome ((salesData.drop (salesData.length - 7)).map (·.totalSales)) =
        some vals →
      abnormalErrors salesData =
        ((salesData.drop (salesData.length - 7)).filter fun e =>
            match e.totalSales with
            | some x => decide (isOutlier (vals.sum / 7)
                ((vals.map fun x => (x - vals.sum / 7) ^ 2).sum / 7) x)
            | none => false).map
          fun e => ValidationError.abnormal_sales .medium e.id e.date) ∧
    (∀ (salesData : List SalesEntry) (c : ℚ), 7 ≤ salesData.length →
      (∀ e ∈ salesData.drop (salesData.length - 7), e.totalSales = some c) →
      abnormalErrors salesData = []) := by
  have hlen7 : ∀ salesData : List SalesEntry, 7 ≤ salesData.length →
      (salesData.drop (salesData.length - 7)).length = 7 := by
    intro salesData h7
    rw [List.length_drop]
    omega
  refine ⟨?_, ?_, ?_⟩
  · intro salesData h7
    simp [abnormalErrors, not_le.mpr h7]
  · intro salesData vals h7 hall
    simp only [abnormalErrors, if_pos h7, hall]
    rw [hlen7 salesData h7]
    norm_num
  · intro salesData c h7 hconst
    have hall : allSome ((salesData.drop (salesData.length - 7)).map (·.totalSales)) =
        some (List.replicate 7 c) := by
      have h := allSome_eq_some_of_forall
        (l := (salesData.drop (salesData.length - 7)).map (·.totalSales)) (c := c)
        (fun x hx => by
          obtain ⟨e, he, rfl⟩ := List.mem_map.mp hx
          exact hconst e he)
      rwa [List.length_map, hlen7 salesData h7] at h
    simp only [abnormalErrors, if_pos h7, hall]
    rw [hlen7 salesData h7]
    have havg : (List.replicate 7 c).sum / ((7 : ℕ) : ℚ) = c := by
      rw [List.sum_replicate, nsmul_eq_mul]
      norm_num
    rw [havg]
    have hvar : ((List.replicate 7 c).map fun x => (x - c) ^ 2).sum / ((7 : ℕ) : ℚ) = 0 := by
      simp [List.map_replicate, List.sum_replicate]
    rw [hvar]
    have hfil : (salesData.drop (salesData.length - 7)).filter (fun e =>
        match e.totalSales with
        | some x => decide (isOutlier c 0 x)
        | none => false) = [] := by
      rw [List.filter_eq_nil_iff]
      intro e he
      rw [hconst e he]
      simp [isOutlier]
    rw [hfil, List.map_nil]

/-- A balanced entry with `totalSales = 100`, for the C7 witness. -/
def c7e : SalesEntry :=
  { id := "E7", date := "2024-01-01", registerNumber := "REG001",
    openingCash := 100, cashSales := 60, cardSales := 40, returnsRefunds := 0,
    cashDrops := 0, closingCash := 160, totalSales := some 100,
    cashDifference := 0 }

/-- Seven identical entries: a zero-variance window. -/
def c7seven : List SalesEntry := [c7e, c7e, c7e, c7e, c7e, c7e, c7e]

/-- Witness for `abnormal_sales_window_behaviour`: no errors for a 1-entry
collection, the window characterisation at a concrete 7-entry collection,
and no errors on its zero-variance window. -/
theorem abnormal_sales_window_behaviour_witness :
    abnormalErrors [c7e] = [] ∧
    abnormalErrors c7seven =
      ((c7seven.drop (c7seven.length - 7)).filter fun e =>
          match e.totalSales with
          | some x => decide (isOutlier ((List.replicate 7 (100 : ℚ)).sum / 7)
              (((List.replicate 7 (100 : ℚ)).map
                fun x => (x - (List.replicate 7 (100 : ℚ)).sum / 7) ^ 2).sum / 7) x)
          | none => false).map
        (fun e => ValidationError.abnormal_sales .medium e.id e.date) ∧
    abnormalErrors c7seven = [] :=
  ⟨abnormal_sales_window_behaviour.1 [c7e] (by decide),
   abnormal_sales_window_behaviour.2.1 c7seven (List.replicate 7 100) (by decide)
     (by decide),
   abnormal_sales_window_behaviour.2.2 c7seven 100 (by decide) (by decide)⟩

end POS
